import Mathlib

/-!
Shallow embedding of `src/app.py` ("Personal Stock Analyzer").

Modelling conventions:
* Prices and sentiment scores are exact rationals (`ℚ`); the Python code uses
  floats, but the spec and its claims speak of exact decimal values.
* The yfinance `info` dict is a record of `Option` fields: `none` stands for an
  absent key (so `info.get(k, d)` becomes `Option.getD`), matching lines 52-59
  of the source.
* `hist['High'].max()` (line 64) is the pandas maximum over the `High` column;
  pandas returns NaN on an empty column, and NumPy division by zero produces a
  non-finite value (inf/NaN), not a rational number and not an exception at
  that line.  Both "no finite value" outcomes are modelled as `none`.
* The Streamlit invalid-ticker branch (lines 52-53) shows an error message and
  computes no metrics; `analyze` returns `none` for that branch and
  `some metrics` for the success branch (lines 56-65).
-/

/-- Fields of the yfinance `info` dict that `app.py` reads (lines 52-70). -/
structure Info where
  longName : Option String
  symbol : Option String
  currentPrice : Option ℚ
  regularMarketPrice : Option ℚ
  previousClose : Option ℚ
  marketCap : Option ℚ
  longBusinessSummary : Option String
deriving DecidableEq

/-- One daily bar of the fetched price history; only the `High` column is used
by the source (line 64). -/
structure Bar where
  high : ℚ
deriving DecidableEq

/-- One entry of the yfinance news list (lines 86-87 read title, publisher). -/
structure NewsItem where
  title : String
  publisher : String
deriving DecidableEq

/-- The triple returned by `get_sentiment` (lines 29-37): a label string, an
emoji string and the compound score. -/
structure Sentiment where
  label : String
  emoji : String
  score : ℚ
deriving DecidableEq

/-- `get_sentiment` (lines 29-37).  The external VADER engine
`analyzer.polarity_scores(text)['compound']` is passed in as the function `f`;
the thresholding on the returned score is the code under verification.
`5/100` is the source's literal `0.05`. -/
def get_sentiment (f : String → ℚ) (text : String) : Sentiment :=
  let score := f text
  if score ≥ 5/100 then
    ⟨"Positive", "😊", score⟩
  else if score ≤ -(5/100) then
    ⟨"Negative", "😟", score⟩
  else
    ⟨"Neutral", "😐", score⟩

/-- Line 58: `current_price = info.get('currentPrice', info.get('regularMarketPrice', 0))`. -/
def current_price (info : Info) : ℚ :=
  info.currentPrice.getD (info.regularMarketPrice.getD 0)

/-- Line 59: `previous_close = info.get('previousClose', 0)`. -/
def previous_close (info : Info) : ℚ :=
  info.previousClose.getD 0

/-- Line 60: `price_change = current_price - previous_close`. -/
def price_change (info : Info) : ℚ :=
  current_price info - previous_close info

/-- Line 61: `percent_change = (price_change / previous_close) * 100 if previous_close else 0`.
Python truthiness of a number is "non-zero". -/
def percent_change (info : Info) : ℚ :=
  if previous_close info ≠ 0 then price_change info / previous_close info * 100 else 0

/-- Line 64: `high_60d = hist['High'].max()`.  The pandas maximum of an empty
column is NaN, modelled as `none`; on a non-empty column it is the maximum of
the entries. -/
def high_60d (hist : List Bar) : Option ℚ :=
  match hist with
  | [] => none
  | b :: bs => some ((bs.map Bar.high).foldl max b.high)

/-- Division as the source's numeric `/` behaves on a zero denominator: no
finite (rational) result is produced (NumPy yields inf/NaN there), modelled as
`none`. -/
def pyDiv (a b : ℚ) : Option ℚ :=
  if b = 0 then none else some (a / b)

/-- Line 65: `drop_from_high = ((current_price - high_60d) / high_60d) * 100`.
There is no zero guard in the source; the division is taken as written. -/
def drop_from_high (current high : ℚ) : Option ℚ :=
  (pyDiv (current - high) high).map (fun q => q * 100)

/-- The metric values computed in the success branch (lines 58-65).  The two
fields that can be non-finite (NaN/inf) are `Option ℚ`. -/
structure PriceMetrics where
  current_price : ℚ
  previous_close : ℚ
  price_change : ℚ
  percent_change : ℚ
  high_60d : Option ℚ
  drop_from_high : Option ℚ
deriving DecidableEq

/-- Lines 52-65: the validity check and the metric computation.
`if not info or info.get('longName') is None` collapses to `longName = none`
(an empty dict has no `longName` key); that branch shows an error and computes
nothing (`none`).  Otherwise all metrics of lines 58-65 are computed.  A NaN
`high_60d` propagates through line 65 into a NaN `drop_from_high` (`Option.bind`). -/
def analyze (info : Info) (hist : List Bar) : Option PriceMetrics :=
  if info.longName = none then
    none
  else
    some {
      current_price := current_price info
      previous_close := previous_close info
      price_change := price_change info
      percent_change := percent_change info
      high_60d := high_60d hist
      drop_from_high := (high_60d hist).bind (fun h => drop_from_high (current_price info) h) }

/-- Lines 85-88: `for item in news[:5]: ... get_sentiment(item['title'])` —
the first five news items (all of them when fewer) are each classified from
their title alone. -/
def analyzed_news (f : String → ℚ) (news : List NewsItem) : List Sentiment :=
  (news.take 5).map (fun item => get_sentiment f item.title)

/-! Helper lemmas about the left fold with `max` that realizes
`hist['High'].max()`. -/

/-- The initial value is a lower bound of a `foldl max`. -/
lemma init_le_foldl_max (l : List ℚ) (a : ℚ) : a ≤ l.foldl max a := by
  induction l generalizing a with
  | nil => exact le_refl a
  | cons b t ih => exact le_trans (le_max_left a b) (ih (max a b))

/-- Every list element is a lower bound of a `foldl max`. -/
lemma mem_le_foldl_max (l : List ℚ) (a x : ℚ) (hx : x ∈ l) : x ≤ l.foldl max a := by
  induction l generalizing a with
  | nil => cases hx
  | cons b t ih =>
    rw [List.foldl_cons]
    rcases List.mem_cons.mp hx with h | h
    · subst h
      exact le_trans (le_max_right a x) (init_le_foldl_max t (max a x))
    · exact ih (max a b) h

/-- A `foldl max` is either the initial value or one of the list elements. -/
lemma foldl_max_mem (l : List ℚ) (a : ℚ) : l.foldl max a = a ∨ l.foldl max a ∈ l := by
  induction l generalizing a with
  | nil => exact Or.inl rfl
  | cons b t ih =>
    rcases ih (max a b) with h | h
    · rcases max_choice a b with hm | hm
      · exact Or.inl (by rw [List.foldl_cons, h, hm])
      · exact Or.inr (by rw [List.foldl_cons, h, hm]; exact List.mem_cons_self b t)
    · exact Or.inr (List.mem_cons_of_mem b h)

/-- On a non-empty history, `high_60d` returns an element of the `High`
column that bounds every element of the column. -/
lemma high_60d_is_max (hist : List Bar) (hne : hist ≠ []) :
    ∃ h, high_60d hist = some h ∧ h ∈ hist.map Bar.high ∧
      ∀ x ∈ hist.map Bar.high, x ≤ h := by
  match hist with
  | [] => exact absurd rfl hne
  | b :: bs =>
    refine ⟨(bs.map Bar.high).foldl max b.high, rfl, ?_, ?_⟩
    · rcases foldl_max_mem (bs.map Bar.high) b.high with h | h
      · rw [h]; exact List.mem_cons_self _ _
      · exact List.mem_cons_of_mem _ h
    · intro x hx
      rcases List.mem_cons.mp hx with h | h
      · subst h; exact init_le_foldl_max _ _
      · exact mem_le_foldl_max _ _ _ h

/-! Helper lemmas characterizing the label returned by `get_sentiment`. -/

/-- The label is "Positive" exactly when the compound score is at least 0.05. -/
lemma label_pos_iff (f : String → ℚ) (t : String) :
    (get_sentiment f t).label = "Positive" ↔ 5/100 ≤ f t := by
  simp only [get_sentiment]
  split_ifs with h1 h2 <;> simp_all

/-- The label is "Negative" exactly when the compound score is at most -0.05. -/
lemma label_neg_iff (f : String → ℚ) (t : String) :
    (get_sentiment f t).label = "Negative" ↔ f t ≤ -(5/100) := by
  simp only [get_sentiment]
  split_ifs with h1 h2 <;> simp_all
  linarith

/-- The label is "Neutral" exactly when the compound score is strictly between
the two thresholds. -/
lemma label_neutral_iff (f : String → ℚ) (t : String) :
    (get_sentiment f t).label = "Neutral" ↔ -(5/100) < f t ∧ f t < 5/100 := by
  simp only [get_sentiment]
  split_ifs with h1 h2 <;> simp_all

/-- Claim C4: for every headline and compound score, `get_sentiment` labels
Positive iff the score is ≥ 0.05, Negative iff ≤ -0.05, Neutral otherwise; in
particular a score of exactly 0.05 is Positive, exactly -0.05 is Negative, and
0.049999 and 0.0 are Neutral. -/
theorem sentiment_threshold_policy (f : String → ℚ) (t : String) :
    ((get_sentiment f t).label = "Positive" ↔ 5/100 ≤ f t) ∧
    ((get_sentiment f t).label = "Negative" ↔ f t ≤ -(5/100)) ∧
    ((get_sentiment f t).label = "Neutral" ↔ -(5/100) < f t ∧ f t < 5/100) ∧
    (get_sentiment (fun _ => 5/100) t).label = "Positive" ∧
    (get_sentiment (fun _ => -(5/100)) t).label = "Negative" ∧
    (get_sentiment (fun _ => 49999/1000000) t).label = "Neutral" ∧
    (get_sentiment (fun _ => 0) t).label = "Neutral" :=
  ⟨label_pos_iff f t, label_neg_iff f t, label_neutral_iff f t,
   (label_pos_iff _ t).mpr (by norm_num),
   (label_neg_iff _ t).mpr (by norm_num),
   (label_neutral_iff _ t).mpr (by norm_num),
   (label_neutral_iff _ t).mpr (by norm_num)⟩

/-- Claim C9: `get_sentiment` returns the engine's compound score unchanged,
and the label depends on that score alone: equal scores yield equal labels
regardless of the text. -/
theorem sentiment_score_passthrough (f : String → ℚ) (t : String) :
    (get_sentiment f t).score = f t ∧
    ∀ u : String, f t = f u → (get_sentiment f t).label = (get_sentiment f u).label := by
  constructor
  · simp only [get_sentiment]
    split_ifs <;> rfl
  · intro u h
    simp only [get_sentiment, h]

/-- Scenario D engine: the external engine scores the earnings headline 0.6
and every other text 0. -/
def engineD : String → ℚ :=
  fun s => if s = "Company beats earnings expectations" then 6/10 else 0

/-- Witness for C9 at the scenario-D headline: the score comes back unchanged
and the label agrees with any other text of equal score. -/
theorem sentiment_score_passthrough_witness :
    (get_sentiment engineD "Company beats earnings expectations").score =
      engineD "Company beats earnings expectations" ∧
    ∀ u : String,
      engineD "Company beats earnings expectations" = engineD u →
      (get_sentiment engineD "Company beats earnings expectations").label =
        (get_sentiment engineD u).label :=
  sentiment_score_passthrough engineD "Company beats earnings expectations"

/-! Concrete snapshots used by witnesses and counterexamples. -/

/-- Scenario A snapshot: current 2500, previous close 2400. -/
def infoA : Info :=
  ⟨some "Reliance Industries Limited", some "RELIANCE.NS", some 2500, none, some 2400,
   some 1000000, none⟩

/-- Scenario B snapshot: current 0, previous close 0. -/
def infoB : Info :=
  ⟨some "Reliance Industries Limited", some "RELIANCE.NS", some 0, none, some 0, none, none⟩

/-- Claim C5: percent change is 0 when the previous close is 0 (no
division-by-zero error: line 61's conditional expression), and equals
((currentPrice - previousClose) / previousClose) * 100 when it is non-zero. -/
theorem percent_change_guarded (info : Info) :
    (previous_close info = 0 → percent_change info = 0) ∧
    (previous_close info ≠ 0 →
      percent_change info =
        (current_price info - previous_close info) / previous_close info * 100) := by
  constructor
  · intro h
    simp [percent_change, h]
  · intro h
    simp [percent_change, price_change, h]

/-- Witness for C5: scenario B (previous close 0) yields percent change 0 and
scenario A (previous close 2400) yields the formula value. -/
theorem percent_change_guarded_witness :
    (percent_change infoB = 0) ∧
    (percent_change infoA =
      (current_price infoA - previous_close infoA) / previous_close infoA * 100) :=
  ⟨(percent_change_guarded infoB).1 (by simp [infoB, previous_close]),
   (percent_change_guarded infoA).2 (by norm_num [infoA, previous_close])⟩

/-- Claim C1 counterexample snapshot: a valid name, current price 10. -/
def infoC1 : Info :=
  ⟨some "Testline Industries", some "TEST.NS", some 10, none, some 8, none, none⟩

/-- Claim C1 is false as stated: with a history whose only high is 0, the
period high is 0 and the drawdown of line 65 is an unguarded division by zero —
it yields no finite value at all (NumPy inf/NaN, modelled `none`), not 0. -/
theorem drop_zero_high_counterexample :
    (analyze infoC1 [Bar.mk 0]).isSome = true ∧
    (analyze infoC1 [Bar.mk 0]).bind PriceMetrics.drop_from_high = none ∧
    (analyze infoC1 [Bar.mk 0]).bind PriceMetrics.drop_from_high ≠ some 0 := by
  refine ⟨?_, ?_, ?_⟩ <;>
    simp [analyze, infoC1, high_60d, drop_from_high, pyDiv]

/-- Claim C1 (amended): when the period high is non-zero the percent drawdown
equals ((currentPrice - periodHigh) / periodHigh) * 100; when the period high
is zero the division is unguarded (the guard used for percent change is absent
at line 65) and no finite value — in particular not 0 — is produced. -/
theorem drop_from_high_unguarded (c h : ℚ) :
    (h ≠ 0 → drop_from_high c h = some ((c - h) / h * 100)) ∧
    (h = 0 → drop_from_high c h = none) := by
  constructor
  · intro hh
    simp [drop_from_high, pyDiv, hh]
  · intro hh
    simp [drop_from_high, pyDiv, hh]

/-- Witness for the amended C1 at period high 4 and at period high 0. -/
theorem drop_from_high_unguarded_witness :
    (drop_from_high 10 4 = some ((10 - 4) / 4 * 100)) ∧
    (drop_from_high 10 0 = none) :=
  ⟨(drop_from_high_unguarded 10 4).1 (by norm_num),
   (drop_from_high_unguarded 10 0).2 rfl⟩

/-- Claim C2 counterexample snapshot: a fully valid instrument record. -/
def infoC2 : Info :=
  ⟨some "Beta Breweries", some "BETA.NS", some 50, none, some 55, none, none⟩

/-- Claim C2 is false as stated: on an empty history the code raises nothing —
no `MissingHistoryError` exists in the source.  `hist['High'].max()` on the
empty column is NaN (modelled `none`), that NaN is substituted into the
metrics, and the metric record is still produced. -/
theorem empty_history_no_failure_counterexample :
    analyze infoC2 [] =
      some { current_price := 50, previous_close := 55, price_change := -5,
             percent_change := -100/11, high_60d := none, drop_from_high := none } := by
  have h : infoC2.longName ≠ none := by simp [infoC2]
  unfold analyze
  rw [if_neg h]
  norm_num [infoC2, current_price, previous_close, price_change, percent_change, high_60d]

/-- Claim C2 (amended): when the history window is empty, the code does not
raise: the period high evaluates to the undefined NaN value (`none`), the
drawdown is likewise undefined, and the metrics record is produced with those
undefined fields rather than any substituted number. -/
theorem empty_history_metrics (info : Info) (hname : info.longName ≠ none) :
    ∃ m, analyze info [] = some m ∧ m.high_60d = none ∧ m.drop_from_high = none := by
  unfold analyze
  rw [if_neg hname]
  exact ⟨_, rfl, rfl, rfl⟩

/-- Witness for the amended C2 at the concrete snapshot `infoC2`. -/
theorem empty_history_metrics_witness :
    ∃ m, analyze infoC2 [] = some m ∧ m.high_60d = none ∧ m.drop_from_high = none :=
  empty_history_metrics infoC2 (by simp [infoC2])

/-- Claim C3 counterexample snapshot: display name present, ticker symbol
absent. -/
def infoC3 : Info :=
  ⟨some "Acme Industries", none, some 10, none, some 8, none, none⟩

/-- Claim C3 is false as stated: the validity check of line 52 looks only at
`longName` — with the ticker symbol absent but the display name present, no
error is surfaced and the metrics are still computed. -/
theorem missing_symbol_counterexample :
    infoC3.symbol = none ∧ (analyze infoC3 [Bar.mk 12]).isSome = true := by
  constructor
  · rfl
  · simp [analyze, infoC3]

/-- Claim C3 (amended): only an absent display name (`longName`, also covering
the empty record) makes the code surface the invalid-ticker error and skip all
metric computation; an absent ticker symbol alone does not — metrics are
computed and the symbol is rendered with a placeholder. -/
theorem analyze_error_iff_no_longName (info : Info) (hist : List Bar) :
    analyze info hist = none ↔ info.longName = none := by
  unfold analyze
  split_ifs with h
  · simp [h]
  · simp [h]

/-- Claim C7 counterexample snapshot: `currentPrice` absent but
`regularMarketPrice` present. -/
def infoC7 : Info :=
  ⟨some "Delta Chemicals", some "DELTA.NS", none, some 7, none, none, none⟩

/-- Claim C7 is false as stated: an absent `currentPrice` is not treated as 0 —
line 58 first substitutes `regularMarketPrice` (here 7), so another substitute
value is used before the 0 sentinel. -/
theorem regular_market_price_fallback_counterexample :
    infoC7.currentPrice = none ∧ current_price infoC7 = 7 ∧
    current_price infoC7 ≠ 0 ∧ price_change infoC7 = 7 := by
  refine ⟨rfl, rfl, by norm_num [infoC7, current_price], ?_⟩
  norm_num [infoC7, price_change, current_price, previous_close]

/-- Claim C7 (amended): an absent `previousClose` is treated as 0; an absent
`currentPrice` first falls back to `regularMarketPrice`, and only when both are
absent is it treated as 0. -/
theorem absent_price_fields_policy (info : Info) :
    (info.previousClose = none → previous_close info = 0) ∧
    (info.currentPrice = none → current_price info = info.regularMarketPrice.getD 0) ∧
    (info.currentPrice = none → info.regularMarketPrice = none → current_price info = 0) := by
  refine ⟨?_, ?_, ?_⟩
  · intro h
    simp [previous_close, h]
  · intro h
    simp [current_price, h]
  · intro h1 h2
    simp [current_price, h1, h2]

/-- Snapshot with every optional price field absent, for the C7 witness. -/
def infoC7w : Info :=
  ⟨some "Delta Chemicals", some "DELTA.NS", none, none, none, none, none⟩

/-- Witness for the amended C7 on a snapshot with all price fields absent. -/
theorem absent_price_fields_policy_witness :
    previous_close infoC7w = 0 ∧
    current_price infoC7w = infoC7w.regularMarketPrice.getD 0 ∧
    current_price infoC7w = 0 :=
  ⟨(absent_price_fields_policy infoC7w).1 rfl,
   (absent_price_fields_policy infoC7w).2.1 rfl,
   (absent_price_fields_policy infoC7w).2.2 rfl rfl⟩

/-- Claim C6: on a non-empty history (whose bars carry positive highs, the
data-model invariant), the period high of line 64 is the maximum of the `high`
field over all bars, and the drawdown of line 65 is non-positive whenever the
current price is at most the period high. -/
theorem period_high_max_drawdown_sign (c : ℚ) (hist : List Bar)
    (hne : hist ≠ []) (hpos : ∀ b ∈ hist, 0 < b.high) :
    ∃ h, high_60d hist = some h ∧
      h ∈ hist.map Bar.high ∧
      (∀ x ∈ hist.map Bar.high, x ≤ h) ∧
      (c ≤ h → ∃ d, drop_from_high c h = some d ∧ d ≤ 0) := by
  obtain ⟨h, hh, hmem, hub⟩ := high_60d_is_max hist hne
  refine ⟨h, hh, hmem, hub, ?_⟩
  intro hc
  obtain ⟨b, hb, hbh⟩ := List.mem_map.mp hmem
  have hp : 0 < h := hbh ▸ hpos b hb
  refine ⟨(c - h) / h * 100, ?_, ?_⟩
  · simp [drop_from_high, pyDiv, ne_of_gt hp]
  · have h1 : c - h ≤ 0 := sub_nonpos.mpr hc
    have h2 : (c - h) / h ≤ 0 := div_nonpos_of_nonpos_of_nonneg h1 hp.le
    linarith

/-- Scenario A history: highs 2600, 2550, 2500. -/
def histA : List Bar := [Bar.mk 2600, Bar.mk 2550, Bar.mk 2500]

/-- Witness for C6 at scenario A: current price 2500 against highs
2600, 2550, 2500. -/
theorem period_high_max_drawdown_sign_witness :
    ∃ h, high_60d histA = some h ∧
      h ∈ histA.map Bar.high ∧
      (∀ x ∈ histA.map Bar.high, x ≤ h) ∧
      ((2500 : ℚ) ≤ h → ∃ d, drop_from_high 2500 h = some d ∧ d ≤ 0) :=
  period_high_max_drawdown_sign 2500 histA (by simp [histA]) (by norm_num [histA])

/-- Claim C8: exactly the first five news items (all of them when fewer) are
classified, each one independently from its own title: the output list has
length `min (length news) 5` and its i-th entry is `get_sentiment` of the i-th
title. -/
theorem news_first_five (f : String → ℚ) (news : List NewsItem) :
    (analyzed_news f news).length = min news.length 5 ∧
    ∀ i (h1 : i < (analyzed_news f news).length) (h2 : i < news.length),
      (analyzed_news f news).get ⟨i, h1⟩ = get_sentiment f (news.get ⟨i, h2⟩).title := by
  constructor
  · simp only [analyzed_news, List.length_map, List.length_take]
    omega
  · intro i h1 h2
    simp only [analyzed_news, List.get_eq_getElem, List.getElem_map, List.getElem_take]

/-- Six news items for the C8 witness. -/
def newsW : List NewsItem :=
  [NewsItem.mk "a1" "p", NewsItem.mk "a2" "p", NewsItem.mk "a3" "p",
   NewsItem.mk "a4" "p", NewsItem.mk "a5" "p", NewsItem.mk "a6" "p"]

/-- Constant engine for the C8 witness. -/
def engineW : String → ℚ := fun _ => 6/10

/-- Witness for C8 on a six-item news list: five outputs, each the
classification of the matching title. -/
theorem news_first_five_witness :
    (analyzed_news engineW newsW).length = min newsW.length 5 ∧
    ∀ i (h1 : i < (analyzed_news engineW newsW).length) (h2 : i < newsW.length),
      (analyzed_news engineW newsW).get ⟨i, h1⟩ =
        get_sentiment engineW (newsW.get ⟨i, h2⟩).title :=
  news_first_five engineW newsW

/-- Claim C10: the period high that reaches the displayed metrics is computed
over the full fetched 3-month history: every bar of the fetched window bounds
it from below and it is attained in the window — no 60-day truncation happens
between fetch and the maximum of line 64. -/
theorem full_window_in_period_high (info : Info) (hist : List Bar) (b : Bar)
    (hb : b ∈ hist) (hname : info.longName ≠ none) :
    ∃ m h, analyze info hist = some m ∧ m.high_60d = some h ∧
      b.high ≤ h ∧ h ∈ hist.map Bar.high := by
  have hne : hist ≠ [] := by
    intro he
    rw [he] at hb
    cases hb
  obtain ⟨h, hh, hmem, hub⟩ := high_60d_is_max hist hne
  unfold analyze
  rw [if_neg hname]
  exact ⟨_, h, rfl, hh, hub b.high (List.mem_map_of_mem Bar.high hb), hmem⟩

/-- A 90-bar fetched window whose maximum sits at index 75, past any 60-bar
truncation. -/
def hist90 : List Bar :=
  List.replicate 75 (Bar.mk 100) ++ Bar.mk 7000 :: List.replicate 14 (Bar.mk 100)

/-- Snapshot for the C10 witness. -/
def infoC10 : Info :=
  ⟨some "Gamma Mills", some "GAMMA.NS", some 6000, none, some 5900, none, none⟩

/-- Witness for C10: the bar at index 75 of the 90-bar window still bounds the
period high used in the metrics. -/
theorem full_window_in_period_high_witness :
    ∃ m h, analyze infoC10 hist90 = some m ∧ m.high_60d = some h ∧
      (Bar.mk 7000).high ≤ h ∧ h ∈ hist90.map Bar.high :=
  full_window_in_period_high infoC10 hist90 (Bar.mk 7000)
    (by unfold hist90; exact List.mem_append_right _ (List.mem_cons_self _ _))
    (by simp [infoC10])
